import Mathlib

/-!
Shallow embedding of the graduated/hybrid pricing engine of the
my-church-saas repository (`lib/stripe/config.ts`) together with the
Stripe line-item reconciliation block inlined in the user-management
server actions (`actions/user.actions.ts`).

Seat counts and minor-currency amounts are JavaScript numbers used as
integers by the source; they are modelled as `Int` (no arithmetic here
can overflow a double for any input the claims quantify over, and the
source performs no truncation). Environment-provided Stripe price
identifiers (`process.env.X!`) are modelled as `Option String`: the
TypeScript non-null assertion `!` is erased at runtime, so an unset
variable flows through as `undefined`, i.e. `none`.
-/

namespace ChurchSaaS

/-- Embeds `FLAT_FEE_CENTS = 1999` of `lib/stripe/config.ts`. -/
def FLAT_FEE_CENTS : Int := 1999

/-- Embeds `FREE_SEATS_THRESHOLD = 50` of `lib/stripe/config.ts`. -/
def FREE_SEATS_THRESHOLD : Int := 50

/-- Embeds the `PricingTier` interface: `minSeats`, `maxSeats`
(`null` = unlimited, modelled `Option`), `pricePerPaidSeat` in cents,
and the display `label`. -/
structure PricingTier where
  minSeats : Int
  maxSeats : Option Int
  pricePerPaidSeat : Int
  label : String
deriving DecidableEq, Repr

/-- Embeds the `PRICING_TIERS` constant array. -/
def PRICING_TIERS : List PricingTier :=
  [ ⟨1, some 50, 0, "Freemium"⟩,
    ⟨51, some 75, 999, "Growth"⟩,
    ⟨76, some 200, 799, "Thrive"⟩,
    ⟨201, none, 599, "Enterprise"⟩ ]

/-- The predicate of the `PRICING_TIERS.find(...)` callback inside
`getPricingTier`: `seats >= t.minSeats && (t.maxSeats === null || seats <= t.maxSeats)`. -/
def tierMatches (seats : Int) (t : PricingTier) : Bool :=
  decide (t.minSeats ≤ seats) &&
    (match t.maxSeats with
     | none => true
     | some m => decide (seats ≤ m))

/-- Embeds `getPricingTier`: first matching tier, else the fallback
`PRICING_TIERS[PRICING_TIERS.length - 1]` (the last tier). -/
def getPricingTier (seats : Int) : PricingTier :=
  match PRICING_TIERS.find? (tierMatches seats) with
  | some t => t
  | none => PRICING_TIERS.getLast (by decide)

/-- Embeds `calculateTotalCost`: flat fee plus
`Math.max(0, seats - FREE_SEATS_THRESHOLD) * tier.pricePerPaidSeat`. -/
def calculateTotalCost (seats : Int) : Int :=
  let tier := getPricingTier seats
  let paidSeats := max 0 (seats - FREE_SEATS_THRESHOLD)
  let variableCost := paidSeats * tier.pricePerPaidSeat
  FLAT_FEE_CENTS + variableCost

/-- Embeds `calculateVariableCost`: the same computation without the
flat fee. -/
def calculateVariableCost (seats : Int) : Int :=
  let tier := getPricingTier seats
  let paidSeats := max 0 (seats - FREE_SEATS_THRESHOLD)
  paidSeats * tier.pricePerPaidSeat

/-- Embeds the environment-variable surface read by `STRIPE_PRICE_IDS`:
one field per `process.env.STRIPE_PRICE_ID_*` variable. A field is
`none` when the variable is unset; the source's `!` assertion performs
no runtime check, so the raw optional value is what flows onward. -/
structure StripeEnv where
  STRIPE_PRICE_ID_BASE_FEE : Option String
  STRIPE_PRICE_ID_GROWTH : Option String
  STRIPE_PRICE_ID_THRIVE : Option String
  STRIPE_PRICE_ID_ENTERPRISE : Option String
deriving DecidableEq, Repr

/-- Embeds the `STRIPE_PRICE_IDS` record built from the environment. -/
structure StripePriceIds where
  BASE_FEE : Option String
  GROWTH : Option String
  THRIVE : Option String
  ENTERPRISE : Option String
deriving DecidableEq, Repr

/-- Embeds the construction of `STRIPE_PRICE_IDS` from `process.env`. -/
def STRIPE_PRICE_IDS (env : StripeEnv) : StripePriceIds :=
  ⟨env.STRIPE_PRICE_ID_BASE_FEE,
   env.STRIPE_PRICE_ID_GROWTH,
   env.STRIPE_PRICE_ID_THRIVE,
   env.STRIPE_PRICE_ID_ENTERPRISE⟩

/-- Embeds one element of the array returned by
`getStripeSubscriptionItems`: `{ price, quantity }`. -/
structure SubItem where
  price : Option String
  quantity : Int
deriving DecidableEq, Repr

/-- Embeds `getStripePriceIds`: `[BASE_FEE]`, plus the tier price id
selected by the `switch (tier.label)` when there are paid seats (the
`default` branch returns just the base fee). -/
def getStripePriceIds (env : StripeEnv) (seats : Int) : List (Option String) :=
  let tier := getPricingTier seats
  let ids := STRIPE_PRICE_IDS env
  let paidSeats := max 0 (seats - FREE_SEATS_THRESHOLD)
  if 0 < paidSeats then
    match tier.label with
    | "Growth" => [ids.BASE_FEE, ids.GROWTH]
    | "Thrive" => [ids.BASE_FEE, ids.THRIVE]
    | "Enterprise" => [ids.BASE_FEE, ids.ENTERPRISE]
    | _ => [ids.BASE_FEE]
  else
    [ids.BASE_FEE]

/-- Embeds `getStripeSubscriptionItems`: always the base-fee item with
quantity 1; when `paidSeats > 0`, additionally the tier item selected by
the `switch (tier.label)` with quantity `paidSeats` (the `default`
branch returns just the base-fee item). -/
def getStripeSubscriptionItems (env : StripeEnv) (seats : Int) : List SubItem :=
  let tier := getPricingTier seats
  let ids := STRIPE_PRICE_IDS env
  let paidSeats := max 0 (seats - FREE_SEATS_THRESHOLD)
  if 0 < paidSeats then
    match tier.label with
    | "Growth" => [⟨ids.BASE_FEE, 1⟩, ⟨ids.GROWTH, paidSeats⟩]
    | "Thrive" => [⟨ids.BASE_FEE, 1⟩, ⟨ids.THRIVE, paidSeats⟩]
    | "Enterprise" => [⟨ids.BASE_FEE, 1⟩, ⟨ids.ENTERPRISE, paidSeats⟩]
    | _ => [⟨ids.BASE_FEE, 1⟩]
  else
    [⟨ids.BASE_FEE, 1⟩]

/-- The external identifier the `switch (tier.label)` of the line-item
generators resolves for a tier label; the `default` branch of the
source adds no item, rendered here as `none`. -/
def tierIdentifier (env : StripeEnv) (label : String) : Option (Option String) :=
  match label with
  | "Growth" => some (STRIPE_PRICE_IDS env).GROWTH
  | "Thrive" => some (STRIPE_PRICE_IDS env).THRIVE
  | "Enterprise" => some (STRIPE_PRICE_IDS env).ENTERPRISE
  | _ => none

/-- A fully-populated environment used for concrete evaluations. -/
def sampleEnv : StripeEnv :=
  ⟨some "price_base", some "price_growth", some "price_thrive", some "price_ent"⟩

/-- An environment in which the required Growth price identifier is
unset, as when `STRIPE_PRICE_ID_GROWTH` is missing from the process
environment. -/
def missingGrowthEnv : StripeEnv :=
  ⟨some "price_base", none, some "price_thrive", some "price_ent"⟩

/-- Embeds the fields of a `currentSubscription.items.data` element
that the reconciliation block of `addUserToOrganization` /
`removeUserFromOrganization` reads: the subscription item's `id`, its
`price.id`, and its quantity (fetched but unused by the diff). -/
structure ExistingItem where
  id : String
  priceId : String
  quantity : Int
deriving DecidableEq, Repr

/-- Embeds one element of the `items` array passed to
`stripe.subscriptions.update`: either `{id?, price, quantity}` (an
update when `id` is present, an insertion when it is `undefined`) or
`{id, deleted: true}`. -/
inductive ReconInstruction where
  | upsert (externalItemId : Option String) (price : Option String) (quantity : Int)
  | delete (externalItemId : String)
deriving DecidableEq, Repr

/-- Embeds the reconciliation block shared by `addUserToOrganization`
and `removeUserFromOrganization`: `stripeItems` maps each desired item
to `{id: existing.find(e => e.price.id === item.price)?.id, price,
quantity}`, `itemsToDelete` marks every existing item whose price id no
longer appears among the desired items, and the update call receives
`[...stripeItems, ...itemsToDelete]`. -/
def reconcileLineItems (desired : List SubItem) (existing : List ExistingItem) :
    List ReconInstruction :=
  let stripeItems := desired.map (fun n =>
    match existing.find? (fun e => n.price == some e.priceId) with
    | some e => ReconInstruction.upsert (some e.id) n.price n.quantity
    | none => ReconInstruction.upsert none n.price n.quantity)
  let itemsToDelete :=
    (existing.filter (fun e => !(desired.any (fun n => n.price == some e.priceId)))).map
      (fun e => ReconInstruction.delete e.id)
  stripeItems ++ itemsToDelete

/-- The existing subscription items of the spec's reconciliation
scenario: the flat-fee item with external id `A` and a Growth tier item
with external id `B` and quantity 25. -/
def reconcileExisting : List ExistingItem :=
  [⟨"A", "price_base", 1⟩, ⟨"B", "price_growth", 25⟩]

/-! Helper lemmas about tier resolution. -/

/-- Resolution always lands in the tier table: either `find?` hit a
member, or the fallback returns the last element, itself a member. -/
theorem getPricingTier_mem (seats : Int) : getPricingTier seats ∈ PRICING_TIERS := by
  unfold getPricingTier
  cases h : PRICING_TIERS.find? (tierMatches seats) with
  | none => exact List.getLast_mem _
  | some t => exact List.mem_of_find?_eq_some h

/-- Above the free threshold the resolved tier is never the Freemium
tier: Freemium requires `seats ≤ 50`, and the fallback is the last
(Enterprise) tier. -/
theorem getPricingTier_ne_freemium (seats : Int) (h : 50 < seats) :
    (getPricingTier seats).label ≠ "Freemium" := by
  unfold getPricingTier
  cases hf : PRICING_TIERS.find? (tierMatches seats) with
  | none => decide
  | some t =>
    have hmem : t ∈ PRICING_TIERS := List.mem_of_find?_eq_some hf
    have hp : tierMatches seats t = true := List.find?_some hf
    simp only [PRICING_TIERS, List.mem_cons, List.not_mem_nil, or_false] at hmem
    rcases hmem with rfl | rfl | rfl | rfl
    · simp only [tierMatches, Bool.and_eq_true, decide_eq_true_eq] at hp
      omega
    · decide
    · decide
    · decide

/-- The four possible concrete values of a resolved tier. -/
theorem getPricingTier_cases (seats : Int) :
    getPricingTier seats = ⟨1, some 50, 0, "Freemium"⟩ ∨
    getPricingTier seats = ⟨51, some 75, 999, "Growth"⟩ ∨
    getPricingTier seats = ⟨76, some 200, 799, "Thrive"⟩ ∨
    getPricingTier seats = ⟨201, none, 599, "Enterprise"⟩ := by
  have h := getPricingTier_mem seats
  simpa only [PRICING_TIERS, List.mem_cons, List.not_mem_nil, or_false] using h

/-- Between 51 and 75 seats the resolver returns the Growth tier. -/
theorem getPricingTier_growth (seats : Int) (h1 : 51 ≤ seats) (h2 : seats ≤ 75) :
    getPricingTier seats = ⟨51, some 75, 999, "Growth"⟩ := by
  have hfind : PRICING_TIERS.find? (tierMatches seats) =
      some ⟨51, some 75, 999, "Growth"⟩ := by
    simp only [PRICING_TIERS]
    rw [List.find?_cons_of_neg _
        (by simp only [tierMatches, Bool.and_eq_true, decide_eq_true_eq]; omega),
      List.find?_cons_of_pos _
        (by simp only [tierMatches, Bool.and_eq_true, decide_eq_true_eq]; omega)]
  simp only [getPricingTier, hfind]

/-- Below or at the free threshold only the base-fee item is emitted. -/
theorem subItems_of_le_threshold (env : StripeEnv) (seats : Int)
    (h : seats ≤ FREE_SEATS_THRESHOLD) :
    getStripeSubscriptionItems env seats = [⟨env.STRIPE_PRICE_ID_BASE_FEE, 1⟩] := by
  have hm : max 0 (seats - FREE_SEATS_THRESHOLD) = 0 :=
    max_eq_left (by simp only [FREE_SEATS_THRESHOLD] at h ⊢; omega)
  simp only [getStripeSubscriptionItems, hm]
  rfl

/-- Above the free threshold the emitted list is the base-fee item
followed by one tier item carrying all paid seats at the identifier of
the resolved tier's label. -/
theorem subItems_of_gt_threshold (env : StripeEnv) (seats : Int)
    (h : FREE_SEATS_THRESHOLD < seats) :
    ∃ tid, tierIdentifier env (getPricingTier seats).label = some tid ∧
      getStripeSubscriptionItems env seats =
        [⟨env.STRIPE_PRICE_ID_BASE_FEE, 1⟩, ⟨tid, seats - FREE_SEATS_THRESHOLD⟩] := by
  have h50 : (50 : Int) < seats := by simpa only [FREE_SEATS_THRESHOLD] using h
  have hm : max 0 (seats - FREE_SEATS_THRESHOLD) = seats - FREE_SEATS_THRESHOLD :=
    max_eq_right (by simp only [FREE_SEATS_THRESHOLD]; omega)
  have hpos : 0 < max 0 (seats - FREE_SEATS_THRESHOLD) := by
    rw [hm]; simp only [FREE_SEATS_THRESHOLD]; omega
  have hif : (0 : Int) < seats - FREE_SEATS_THRESHOLD := by
    simp only [FREE_SEATS_THRESHOLD]; omega
  have hne := getPricingTier_ne_freemium seats h50
  rcases getPricingTier_cases seats with ht | ht | ht | ht
  · rw [ht] at hne; exact absurd rfl hne
  · refine ⟨(STRIPE_PRICE_IDS env).GROWTH, by rw [ht]; rfl, ?_⟩
    simp only [getStripeSubscriptionItems, ht, hm]
    rw [if_pos hif]; rfl
  · refine ⟨(STRIPE_PRICE_IDS env).THRIVE, by rw [ht]; rfl, ?_⟩
    simp only [getStripeSubscriptionItems, ht, hm]
    rw [if_pos hif]; rfl
  · refine ⟨(STRIPE_PRICE_IDS env).ENTERPRISE, by rw [ht]; rfl, ?_⟩
    simp only [getStripeSubscriptionItems, ht, hm]
    rw [if_pos hif]; rfl

/-- C3: the line-item list always starts with the flat-fee item of
quantity 1, has length 1 or 2, has length 2 exactly when the seat count
exceeds the free threshold, and the tier item (when present) carries
the entire paid-seat count under the identifier of the tier containing
`seats`. -/
theorem subscriptionItems_shape (env : StripeEnv) (seats : Int) (_h0 : 0 ≤ seats) :
    (getStripeSubscriptionItems env seats).head? =
        some ⟨env.STRIPE_PRICE_ID_BASE_FEE, 1⟩ ∧
    ((getStripeSubscriptionItems env seats).length = 1 ∨
      (getStripeSubscriptionItems env seats).length = 2) ∧
    ((getStripeSubscriptionItems env seats).length = 2 ↔ FREE_SEATS_THRESHOLD < seats) ∧
    (FREE_SEATS_THRESHOLD < seats →
      ∃ tid, tierIdentifier env (getPricingTier seats).label = some tid ∧
        getStripeSubscriptionItems env seats =
          [⟨env.STRIPE_PRICE_ID_BASE_FEE, 1⟩, ⟨tid, seats - FREE_SEATS_THRESHOLD⟩]) := by
  by_cases h : FREE_SEATS_THRESHOLD < seats
  · obtain ⟨tid, htid, hitems⟩ := subItems_of_gt_threshold env seats h
    rw [hitems]
    exact ⟨rfl, Or.inr rfl, by simp [h], fun _ => ⟨tid, htid, rfl⟩⟩
  · rw [subItems_of_le_threshold env seats (by omega)]
    exact ⟨rfl, Or.inl rfl, by simp [h], fun hc => absurd hc h⟩

/-- Witness for C3 at a fully-populated environment and `seats = 60`. -/
theorem subscriptionItems_shape_witness :
    0 ≤ (60 : Int) ∧
    ((getStripeSubscriptionItems sampleEnv 60).head? =
        some ⟨sampleEnv.STRIPE_PRICE_ID_BASE_FEE, 1⟩ ∧
    ((getStripeSubscriptionItems sampleEnv 60).length = 1 ∨
      (getStripeSubscriptionItems sampleEnv 60).length = 2) ∧
    ((getStripeSubscriptionItems sampleEnv 60).length = 2 ↔
        FREE_SEATS_THRESHOLD < (60 : Int)) ∧
    (FREE_SEATS_THRESHOLD < (60 : Int) →
      ∃ tid, tierIdentifier sampleEnv (getPricingTier 60).label = some tid ∧
        getStripeSubscriptionItems sampleEnv 60 =
          [⟨sampleEnv.STRIPE_PRICE_ID_BASE_FEE, 1⟩,
           ⟨tid, 60 - FREE_SEATS_THRESHOLD⟩])) :=
  ⟨by decide, subscriptionItems_shape sampleEnv 60 (by decide)⟩

/-- C9 counterexample: with the Growth price identifier absent from the
environment, `getStripeSubscriptionItems` at 60 seats succeeds anyway
and emits the tier line item with a missing (`none`) identifier — the
claimed loud failure never happens. -/
theorem missingIdentifier_item_emitted :
    getStripeSubscriptionItems missingGrowthEnv 60 =
      [⟨some "price_base", 1⟩, ⟨none, 10⟩] := rfl

/-- C9 amended: an absent required identifier is never validated; when
the resolved tier is Growth and its environment variable is unset, the
tier item is still emitted, silently carrying the absent identifier. -/
theorem missingIdentifier_silently_propagates (env : StripeEnv) (seats : Int)
    (hg : env.STRIPE_PRICE_ID_GROWTH = none)
    (h1 : 51 ≤ seats) (h2 : seats ≤ 75) :
    getStripeSubscriptionItems env seats =
      [⟨env.STRIPE_PRICE_ID_BASE_FEE, 1⟩, ⟨none, seats - FREE_SEATS_THRESHOLD⟩] := by
  obtain ⟨tid, htid, hitems⟩ :=
    subItems_of_gt_threshold env seats (by simp only [FREE_SEATS_THRESHOLD]; omega)
  have hgrowth := getPricingTier_growth seats h1 h2
  rw [hgrowth] at htid
  simp only [tierIdentifier, STRIPE_PRICE_IDS, hg, Option.some_inj] at htid
  rw [hitems, ← htid]

/-- Witness for the amended C9 at the Growth-less environment and 60
seats. -/
theorem missingIdentifier_silently_propagates_witness :
    missingGrowthEnv.STRIPE_PRICE_ID_GROWTH = none ∧ (51 : Int) ≤ 60 ∧
    (60 : Int) ≤ 75 ∧
    getStripeSubscriptionItems missingGrowthEnv 60 =
      [⟨missingGrowthEnv.STRIPE_PRICE_ID_BASE_FEE, 1⟩,
       ⟨none, 60 - FREE_SEATS_THRESHOLD⟩] :=
  ⟨rfl, by decide, by decide,
   missingIdentifier_silently_propagates missingGrowthEnv 60 rfl (by decide) (by decide)⟩

/-- C10: `getStripePriceIds` returns, element for element and in
order, exactly the price identifiers of the items returned by
`getStripeSubscriptionItems`. -/
theorem priceIds_agree_with_items (env : StripeEnv) (seats : Int) :
    getStripePriceIds env seats =
      (getStripeSubscriptionItems env seats).map SubItem.price := by
  simp only [getStripePriceIds, getStripeSubscriptionItems]
  by_cases hp : 0 < max 0 (seats - FREE_SEATS_THRESHOLD)
  · rw [if_pos hp, if_pos hp]
    rcases getPricingTier_cases seats with h | h | h | h <;> rw [h] <;> rfl
  · rw [if_neg hp, if_neg hp]; rfl

/-- C1: below or at the 50-seat free threshold the variable cost is 0;
above it, the variable cost is `(seats - 50)` times the
`pricePerPaidSeat` of the tier resolved for `seats`. -/
theorem variableCost_piecewise :
    (∀ seats : Int, 0 ≤ seats → seats ≤ FREE_SEATS_THRESHOLD →
      calculateVariableCost seats = 0) ∧
    (∀ seats : Int, FREE_SEATS_THRESHOLD < seats →
      calculateVariableCost seats =
        (seats - FREE_SEATS_THRESHOLD) * (getPricingTier seats).pricePerPaidSeat) := by
  constructor
  · intro seats h0 h50
    simp only [calculateVariableCost]
    have hm : max 0 (seats - FREE_SEATS_THRESHOLD) = 0 :=
      max_eq_left (by simp only [FREE_SEATS_THRESHOLD] at h50 ⊢; omega)
    rw [hm, zero_mul]
  · intro seats h
    simp only [calculateVariableCost]
    have hm : max 0 (seats - FREE_SEATS_THRESHOLD) = seats - FREE_SEATS_THRESHOLD :=
      max_eq_right (by simp only [FREE_SEATS_THRESHOLD] at h ⊢; omega)
    rw [hm]

/-- Witness for C1 at `seats = 25` (free region) and `seats = 60`
(paid region). -/
theorem variableCost_piecewise_witness :
    (0 ≤ (25 : Int) ∧ (25 : Int) ≤ FREE_SEATS_THRESHOLD ∧
      calculateVariableCost 25 = 0) ∧
    (FREE_SEATS_THRESHOLD < (60 : Int) ∧
      calculateVariableCost 60 =
        ((60 : Int) - FREE_SEATS_THRESHOLD) * (getPricingTier 60).pricePerPaidSeat) :=
  ⟨⟨by decide, by decide, variableCost_piecewise.1 25 (by decide) (by decide)⟩,
   ⟨by decide, variableCost_piecewise.2 60 (by decide)⟩⟩

/-- C2: the concrete tier table reproduces every row of the scenario
table (totals and line items for seats 25, 50, 51, 60, 75, 76, 100,
200, 201, 250), and the two boundary crossings reduce the total by
exactly 4201 and 29401 minor units. -/
theorem scenario_table (env : StripeEnv) :
    (calculateTotalCost 25 = 1999 ∧
      getStripeSubscriptionItems env 25 = [⟨env.STRIPE_PRICE_ID_BASE_FEE, 1⟩]) ∧
    (calculateTotalCost 50 = 1999 ∧
      getStripeSubscriptionItems env 50 = [⟨env.STRIPE_PRICE_ID_BASE_FEE, 1⟩]) ∧
    (calculateTotalCost 51 = 2998 ∧
      getStripeSubscriptionItems env 51 =
        [⟨env.STRIPE_PRICE_ID_BASE_FEE, 1⟩, ⟨env.STRIPE_PRICE_ID_GROWTH, 1⟩]) ∧
    (calculateTotalCost 60 = 11989 ∧
      getStripeSubscriptionItems env 60 =
        [⟨env.STRIPE_PRICE_ID_BASE_FEE, 1⟩, ⟨env.STRIPE_PRICE_ID_GROWTH, 10⟩]) ∧
    (calculateTotalCost 75 = 26974 ∧
      getStripeSubscriptionItems env 75 =
        [⟨env.STRIPE_PRICE_ID_BASE_FEE, 1⟩, ⟨env.STRIPE_PRICE_ID_GROWTH, 25⟩]) ∧
    (calculateTotalCost 76 = 22773 ∧
      getStripeSubscriptionItems env 76 =
        [⟨env.STRIPE_PRICE_ID_BASE_FEE, 1⟩, ⟨env.STRIPE_PRICE_ID_THRIVE, 26⟩]) ∧
    (calculateTotalCost 100 = 41949 ∧
      getStripeSubscriptionItems env 100 =
        [⟨env.STRIPE_PRICE_ID_BASE_FEE, 1⟩, ⟨env.STRIPE_PRICE_ID_THRIVE, 50⟩]) ∧
    (calculateTotalCost 200 = 121849 ∧
      getStripeSubscriptionItems env 200 =
        [⟨env.STRIPE_PRICE_ID_BASE_FEE, 1⟩, ⟨env.STRIPE_PRICE_ID_THRIVE, 150⟩]) ∧
    (calculateTotalCost 201 = 92448 ∧
      getStripeSubscriptionItems env 201 =
        [⟨env.STRIPE_PRICE_ID_BASE_FEE, 1⟩, ⟨env.STRIPE_PRICE_ID_ENTERPRISE, 151⟩]) ∧
    (calculateTotalCost 250 = 121799 ∧
      getStripeSubscriptionItems env 250 =
        [⟨env.STRIPE_PRICE_ID_BASE_FEE, 1⟩, ⟨env.STRIPE_PRICE_ID_ENTERPRISE, 200⟩]) ∧
    calculateTotalCost 76 < calculateTotalCost 75 ∧
    calculateTotalCost 201 < calculateTotalCost 200 ∧
    calculateTotalCost 76 - calculateTotalCost 75 = -4201 ∧
    calculateTotalCost 201 - calculateTotalCost 200 = -29401 :=
  ⟨⟨by decide, rfl⟩, ⟨by decide, rfl⟩, ⟨by decide, rfl⟩, ⟨by decide, rfl⟩,
   ⟨by decide, rfl⟩, ⟨by decide, rfl⟩, ⟨by decide, rfl⟩, ⟨by decide, rfl⟩,
   ⟨by decide, rfl⟩, ⟨by decide, rfl⟩, by decide, by decide, by decide, by decide⟩

/-- C4: code bug relative to the spec's required behavior for
`totalSeats = 0`. `getPricingTier 0` matches no tier (the first tier
starts at `minSeats = 1`) and the source silently falls back to the
LAST tier (Enterprise, 599 cents per paid seat) instead of returning
the first tier or raising a validation error. -/
theorem getPricingTier_zero_falls_back_to_last :
    getPricingTier 0 = ⟨201, none, 599, "Enterprise"⟩ ∧
    PRICING_TIERS.head? = some ⟨1, some 50, 0, "Freemium"⟩ ∧
    getPricingTier 0 ≠ ⟨1, some 50, 0, "Freemium"⟩ := by
  decide

/-- C6: the total cost is the flat fee plus the variable cost, as an
algebraic identity over all integer seat counts. -/
theorem totalCost_eq_flatFee_add_variableCost (seats : Int) :
    calculateTotalCost seats = FLAT_FEE_CENTS + calculateVariableCost seats := rfl

/-- C7: the total cost is always at least the flat fee; the embedding
is a total pure function of the seat count and the static table, so it
is deterministic and never fails. -/
theorem totalCost_ge_flatFee (seats : Int) :
    FLAT_FEE_CENTS ≤ calculateTotalCost seats := by
  simp only [calculateTotalCost]
  have hp : 0 ≤ (getPricingTier seats).pricePerPaidSeat := by
    rcases getPricingTier_cases seats with h | h | h | h <;> rw [h] <;> decide
  have hq : (0 : Int) ≤ max 0 (seats - FREE_SEATS_THRESHOLD) := le_max_left 0 _
  linarith [mul_nonneg hq hp]

/-- C8 counterexample: at `seats = -5` both cost functions return
normally (flat fee, resp. 0) instead of failing with an
InvalidArgument error — `Math.max(0, seats - 50)` silently clamps the
paid-seat count. -/
theorem negativeSeats_not_rejected :
    calculateTotalCost (-5) = 1999 ∧ calculateVariableCost (-5) = 0 := by
  decide

/-- C8 amended: for every negative seat count the cost functions do not
fail; the paid-seat count is silently clamped to 0, so the total cost
is exactly the flat fee and the variable cost is 0. -/
theorem negativeSeats_silently_clamped (seats : Int) (h : seats < 0) :
    calculateTotalCost seats = FLAT_FEE_CENTS ∧ calculateVariableCost seats = 0 := by
  have hm : max 0 (seats - FREE_SEATS_THRESHOLD) = 0 :=
    max_eq_left (by simp only [FREE_SEATS_THRESHOLD] at h ⊢; omega)
  simp only [calculateTotalCost, calculateVariableCost]
  rw [hm, zero_mul, add_zero]
  exact ⟨rfl, rfl⟩

/-- Witness for the amended C8 at `seats = -7`. -/
theorem negativeSeats_silently_clamped_witness :
    (-7 : Int) < 0 ∧
      (calculateTotalCost (-7) = FLAT_FEE_CENTS ∧ calculateVariableCost (-7) = 0) :=
  ⟨by decide, negativeSeats_silently_clamped (-7) (by decide)⟩

/-- C5: reconciliation emits an update (with the matched existing
item's external id and the new quantity) for every desired item whose
identifier matches an existing item, an insertion (no external id) for
every desired item with no match, and a deletion for every existing
item whose identifier is no longer desired; the spec's concrete
scenario (existing flat item `A` and Growth item `B`, new seat count
100) produces exactly the update of `A`, the insertion of the Thrive
item with quantity 50, and the deletion of `B`. -/
theorem reconcile_update_insert_delete (desired : List SubItem)
    (existing : List ExistingItem) :
    (∀ n ∈ desired, (∃ e ∈ existing, n.price = some e.priceId) →
      ∃ e ∈ existing, n.price = some e.priceId ∧
        ReconInstruction.upsert (some e.id) n.price n.quantity ∈
          reconcileLineItems desired existing) ∧
    (∀ n ∈ desired, (∀ e ∈ existing, n.price ≠ some e.priceId) →
      ReconInstruction.upsert none n.price n.quantity ∈
        reconcileLineItems desired existing) ∧
    (∀ e ∈ existing, (∀ n ∈ desired, n.price ≠ some e.priceId) →
      ReconInstruction.delete e.id ∈ reconcileLineItems desired existing) ∧
    reconcileLineItems (getStripeSubscriptionItems sampleEnv 100) reconcileExisting =
      [ReconInstruction.upsert (some "A") (some "price_base") 1,
       ReconInstruction.upsert none (some "price_thrive") 50,
       ReconInstruction.delete "B"] := by
  refine ⟨?_, ?_, ?_, rfl⟩
  · intro n hn hex
    cases hfind : existing.find? (fun e => n.price == some e.priceId) with
    | none =>
      exfalso
      obtain ⟨e, he, heq⟩ := hex
      have := List.find?_eq_none.mp hfind e he
      simp only [beq_iff_eq] at this
      exact this heq
    | some e =>
      refine ⟨e, List.mem_of_find?_eq_some hfind, ?_, ?_⟩
      · have := List.find?_some hfind
        simpa only [beq_iff_eq] using this
      · simp only [reconcileLineItems]
        apply List.mem_append_left
        have hmem := List.mem_map_of_mem (fun n =>
          match existing.find? (fun e => n.price == some e.priceId) with
          | some e => ReconInstruction.upsert (some e.id) n.price n.quantity
          | none => ReconInstruction.upsert none n.price n.quantity) hn
        simpa only [hfind] using hmem
  · intro n hn hall
    have hfind : existing.find? (fun e => n.price == some e.priceId) = none := by
      apply List.find?_eq_none.mpr
      intro e he
      simpa only [beq_iff_eq] using hall e he
    simp only [reconcileLineItems]
    apply List.mem_append_left
    have hmem := List.mem_map_of_mem (fun n =>
      match existing.find? (fun e => n.price == some e.priceId) with
      | some e => ReconInstruction.upsert (some e.id) n.price n.quantity
      | none => ReconInstruction.upsert none n.price n.quantity) hn
    simpa only [hfind] using hmem
  · intro e he hall
    have hany : desired.any (fun n => n.price == some e.priceId) = false := by
      rw [← Bool.not_eq_true, List.any_eq_true]
      rintro ⟨n, hn, hbeq⟩
      rw [beq_iff_eq] at hbeq
      exact hall n hn hbeq
    simp only [reconcileLineItems]
    apply List.mem_append_right
    apply List.mem_map_of_mem
    exact List.mem_filter.mpr ⟨he, by rw [hany]; rfl⟩

/-- Witness for C5: applying the deletion clause at the scenario's
Growth item `B` shows its deletion is emitted. -/
theorem reconcile_update_insert_delete_witness :
    (⟨"B", "price_growth", 25⟩ : ExistingItem) ∈ reconcileExisting ∧
    ReconInstruction.delete "B" ∈
      reconcileLineItems (getStripeSubscriptionItems sampleEnv 100) reconcileExisting :=
  ⟨by decide,
   (reconcile_update_insert_delete (getStripeSubscriptionItems sampleEnv 100)
      reconcileExisting).2.2.1 ⟨"B", "price_growth", 25⟩ (by decide) (by decide)⟩

end ChurchSaaS
